import Mathlib

/-!
Verification of the model-optimisation notebook
(`00_Miscellaneous/model_optimisation`): a shallow embedding of the
notebook helper functions (`describe_graph`, `get_size`, `freeze_graph`,
`get_graph_def_from_file`, `optimize_graph`,
`convert_graph_def_to_saved_model`, `predict`, `inference_test`,
`inference_cmle`) and of the pipeline the notebook runs, with theorems
about their behaviour.
-/

namespace TFOpt

/-- Python os.path.join(a, b) for a relative second component. -/
def pathJoin (a b : String) : String := a ++ "/" ++ b

/-- The Python substring test `pat in s`. -/
def containsSub (s pat : String) : Bool :=
  s.data.tails.any (fun t => pat.data.isPrefixOf t)

/-- A node of a computation graph: its name and its operation type.
These are the only fields the notebook code inspects. -/
structure NodeDef where
  name : String
  op : String
deriving DecidableEq

/-- A serialized computation graph: its list of nodes. -/
structure GraphDef where
  node : List NodeDef
deriving DecidableEq

/-- The diagnostics printed by `describe_graph`. -/
structure GraphDescription where
  inputFeatureNodes : List String
  unusedNodes : List String
  outputNodes : List String
  quantizationNodes : List String
  constantCount : Nat
  variableCount : Nat
  identityCount : Nat
  totalNodes : Nat
deriving DecidableEq

/-- The notebook function `describe_graph` (cell 29): the diagnostics it computes and
prints over a `GraphDef`. -/
def describe_graph (g : GraphDef) : GraphDescription :=
  { inputFeatureNodes :=
      ((g.node.filter (fun n => n.op == "Placeholder")).map (fun n => n.name)),
    unusedNodes :=
      ((g.node.filter (fun n => containsSub n.name "unused")).map (fun n => n.name)),
    outputNodes :=
      ((g.node.filter (fun n => containsSub n.name "predictions")).map (fun n => n.name)),
    quantizationNodes :=
      ((g.node.filter (fun n => containsSub n.name "quant")).map (fun n => n.name)),
    constantCount := (g.node.filter (fun n => n.op == "Const")).length,
    variableCount := (g.node.filter (fun n => containsSub n.op "Variable")).length,
    identityCount := (g.node.filter (fun n => n.op == "Identity")).length,
    totalNodes := g.node.length }

/-- Function `describe_graph` in state-passing form: it returns its diagnostics and
the graph as it stands afterwards (the function only reads the graph). -/
def describe_graph_run (g : GraphDef) : GraphDescription × GraphDef :=
  (describe_graph g, g)

/-- Modelled from the spec: the effect on the graph of the external
TensorFlow `freeze_graph.freeze_graph` tool invoked by the notebook
wrapper `freeze_graph` (cell 38), which is not part of this repository.
Per the spec, freezing replaces the external parameter references of a model
(its variable nodes) with embedded constant values.  A single node is
frozen by turning every variable node into a `Const` node holding the
checkpoint value. -/
def freeze_node (n : NodeDef) : NodeDef :=
  if containsSub n.op "Variable" then { name := n.name, op := "Const" } else n

/-- Modelled from the spec: the graph-level freeze transformation
(SavedModel graph to frozen GraphDef) performed by the external
`freeze_graph.freeze_graph` call: every variable node is replaced by an
embedded constant. -/
def freeze_graph (g : GraphDef) : GraphDef :=
  { node := g.node.map freeze_node }

/-- The transform list the notebook passes to `optimize_graph`
(cell 48); the two quantization transforms appear only as comments in the
source and are not part of the list. -/
def transforms : List String :=
  ["remove_nodes(op=Identity)",
   "fold_constants(ignore_errors=true)",
   "fold_batch_norms",
   "fuse_resize_pad_and_conv",
   "merge_duplicate_nodes",
   "strip_unused_nodes",
   "sort_by_execution_order"]

/-! Binary serialization of a GraphDef.

The notebook writes graphs with `tf.train.write_graph(..., as_text=False)`
and reads them back with `GraphDef.ParseFromString`; both are external
protobuf library calls.  They are modelled by a concrete binary codec over
byte lists: each string is written as its length followed by its
character codes, and a graph as its node count followed by its nodes. -/

/-- Binary encoding of one string: length prefix, then character codes. -/
def encodeStr (s : String) : List Nat :=
  s.data.length :: s.data.map Char.toNat

/-- Binary encoding of one node: its name, then its op. -/
def encodeNode (n : NodeDef) : List Nat :=
  encodeStr n.name ++ encodeStr n.op

/-- Binary encoding of a GraphDef: node count, then the encoded nodes. -/
def encodeGraphDef (g : GraphDef) : List Nat :=
  g.node.length :: (g.node.map encodeNode).flatten

/-- Decode one length-prefixed string, returning it and the remaining
bytes. -/
def decodeStr : List Nat → Option (String × List Nat)
  | [] => none
  | k :: bs =>
    if k ≤ bs.length then
      some (String.mk ((bs.take k).map Char.ofNat), bs.drop k)
    else none

/-- Decode a given number of nodes, returning them and the remaining
bytes. -/
def decodeNodes : Nat → List Nat → Option (List NodeDef × List Nat)
  | 0, bs => some ([], bs)
  | k + 1, bs =>
    match decodeStr bs with
    | none => none
    | some (name, bs1) =>
      match decodeStr bs1 with
      | none => none
      | some (op, bs2) =>
        match decodeNodes k bs2 with
        | none => none
        | some (ns, bs3) => some ({ name := name, op := op } :: ns, bs3)

/-- Decode a whole GraphDef from a byte list; fails on trailing bytes or
a malformed stream. -/
def decodeGraphDef (bs : List Nat) : Option GraphDef :=
  match bs with
  | [] => none
  | k :: rest =>
    match decodeNodes k rest with
    | some (ns, []) => some { node := ns }
    | _ => none

/-! The file system.

File contents are byte lists; a file system maps each path to the content
stored there, if any. -/

/-- A file system: each path maps to the bytes stored there, if any. -/
def FileSys : Type := String → Option (List Nat)

/-- The call `tf.train.write_graph(graph, logdir, as_text=False, name)`: store the
binary serialization of the graph at `logdir/name`. -/
def write_graph (fs : FileSys) (g : GraphDef) (logdir fname : String) : FileSys :=
  fun p => if p = pathJoin logdir fname then some (encodeGraphDef g) else fs p

/-- The notebook function `get_graph_def_from_file` (cell 43): read the file and parse a
GraphDef from its bytes; `none` when the file is missing or parsing
raises. -/
def get_graph_def_from_file (fs : FileSys) (graph_filepath : String) : Option GraphDef :=
  (fs graph_filepath).bind decodeGraphDef

/-- The signature of the external `TransformGraph` call: a graph, the
input names, the output names, and the transform list give a rewritten
graph. -/
def TransformFn : Type :=
  GraphDef → List String → List String → List String → GraphDef

/-- The notebook function `optimize_graph` (cell 47), parametrized by the external
`TransformGraph` implementation `tg`: read the GraphDef from
`model_dir/graph_filename`, call `tg` with empty `input_names` and
`output_names = [head/predictions/ExpandDims]`, and write the returned
graph to `model_dir/optimised_model.pb`.  `none` when reading the input
raises. -/
def optimize_graph (tg : TransformFn) (fs : FileSys)
    (model_dir graph_filename : String) (ts : List String) : Option FileSys :=
  match get_graph_def_from_file fs (pathJoin model_dir graph_filename) with
  | none => none
  | some graph_def =>
    some (write_graph fs (tg graph_def [] ["head/predictions/ExpandDims"] ts)
      model_dir "optimised_model.pb")

/-- The notebook function `get_size` (cell 35) over a map from paths to file sizes: the size of
`saved_model.pb`, the variables size (data plus index when the data file
exists, 0 otherwise), and their total.  `none` when `os.path.getsize`
raises on a missing file. -/
def get_size (sizes : String → Option Nat) (model_dir : String) :
    Option (Nat × Nat × Nat) :=
  match sizes (pathJoin model_dir "saved_model.pb") with
  | none => none
  | some pb_size =>
    match sizes (pathJoin model_dir "variables/variables.data-00000-of-00001") with
    | none => some (pb_size, 0, pb_size + 0)
    | some data_size =>
      match sizes (pathJoin model_dir "variables/variables.index") with
      | none => none
      | some index_size =>
        some (pb_size, data_size + index_size, pb_size + (data_size + index_size))

/-! Converting an optimised GraphDef back to a SavedModel. -/

/-- A SavedModel signature as built by `tf.saved_model.simple_save`:
the `inputs` and `outputs` dictionaries, each binding a key to a tensor
name. -/
structure SavedModel where
  inputs : List (String × String)
  outputs : List (String × String)
deriving DecidableEq

/-- Insert one key-value pair with Python dict semantics: an existing key
has its value updated in place, a new key is appended. -/
def dictInsert (d : List (String × String)) (kv : String × String) :
    List (String × String) :=
  if d.any (fun p => p.1 == kv.1) then
    d.map (fun p => if p.1 == kv.1 then (p.1, kv.2) else p)
  else d ++ [kv]

/-- A Python dict built from a comprehension over a list of key-value
pairs. -/
def dictOfList (kvs : List (String × String)) : List (String × String) :=
  kvs.foldl dictInsert []

/-- A store of SavedModel directories: each directory path maps to the
SavedModel written there, if any. -/
def ModelStore : Type := String → Option SavedModel

/-- The call `tf.gfile.DeleteRecursively` on a directory of the store. -/
def deleteDir (store : ModelStore) (d : String) : ModelStore :=
  fun p => if p = d then none else store p

/-- The notebook function `convert_graph_def_to_saved_model` (cell 53) on the GraphDef read from
the optimised file: delete any pre-existing
`saved_model_dir/optimised` directory, then write there a SavedModel
whose `inputs` dict has one entry per Placeholder node (key the node
name, value the tensor `name:0`) and whose `outputs` dict binds
`class_ids` to `head/predictions/ExpandDims:0`.  `none` when
`tf.import_graph_def` raises on duplicate node names or
`get_tensor_by_name` raises because the output node is absent. -/
def convert_graph_def_to_saved_model (saved_model_dir : String)
    (store : ModelStore) (g : GraphDef) : Option (SavedModel × ModelStore) :=
  if (g.node.map (fun n => n.name)).Nodup ∧
      g.node.any (fun n => n.name == "head/predictions/ExpandDims") = true then
    let sm : SavedModel :=
      { inputs := dictOfList ((g.node.filter (fun n => n.op == "Placeholder")).map
          (fun n => (n.name, n.name ++ ":0"))),
        outputs := [("class_ids", "head/predictions/ExpandDims:0")] }
    let export_dir := pathJoin saved_model_dir "optimised"
    some (sm, fun p =>
      if p = export_dir then some sm else deleteDir store export_dir p)
  else none

/-! The cloud prediction response and `predict`. -/

/-- A Python value as found in a parsed JSON prediction response. -/
inductive PyVal : Type where
  | int (n : Int)
  | str (s : String)
  | list (xs : List PyVal)
  | dict (kvs : List (String × PyVal))

/-- Python subscripting `v[k]` with a string key: a dict lookup (the
binding produced by dict construction, where a later duplicate key wins);
on any other value it raises, modelled as `none`. -/
def PyVal.get (v : PyVal) (k : String) : Option PyVal :=
  match v with
  | PyVal.dict kvs => (kvs.reverse.find? (fun kv => kv.1 == k)).map (fun kv => kv.2)
  | _ => none

/-- Python iteration `for item in v`: a list yields its items, a string
its one-character strings, a dict its keys; an int raises, modelled as
`none`. -/
def PyVal.iter (v : PyVal) : Option (List PyVal) :=
  match v with
  | PyVal.list xs => some xs
  | PyVal.str s => some (s.data.map (fun c => PyVal.str (String.mk [c])))
  | PyVal.dict kvs => some (kvs.map (fun kv => PyVal.str kv.1))
  | PyVal.int _ => none

/-- The list comprehension `[item[class_ids] for item in items]`:
succeeds only when every item has the key. -/
def getAllClassIds : List PyVal → Option (List PyVal)
  | [] => some []
  | it :: rest =>
    match it.get "class_ids", getAllClassIds rest with
    | some v, some vs => some (v :: vs)
    | _, _ => none

/-- The body of the try block of `predict` (cell 73):
`[item[class_ids] for item in response[predictions]]`. -/
def extractClassIds (response : PyVal) : Option (List PyVal) :=
  match response.get "predictions" with
  | none => none
  | some p =>
    match p.iter with
    | none => none
    | some items => getAllClassIds items

/-- The notebook function `predict` (cell 73) on an already-received response: `class_ids`
starts as `None`; the `try` block assigns the extracted list, a bare
`except` catches any failure and leaves `None`, which is returned. -/
def predict (response : PyVal) : Option (List PyVal) :=
  match extractClassIds response with
  | some class_ids => some class_ids
  | none => none

/-! The timing loops. -/

/-- The loop `for i in range(n): output = predictor(input)`: the inputs
passed to the predictor in order, and the value of `output` afterwards
(it starts as `None`). -/
def predictLoop {I O : Type} (predictor : I → O) (input : I) :
    Nat → List I × Option O
  | 0 => ([], none)
  | k + 1 =>
    ((predictLoop predictor input k).1 ++ [input], some (predictor input))

/-- What a timed inference run did: the inputs of the predictor calls
inside the timed interval, the final output, and the reported average
latency per batch. -/
structure InferenceTiming (I O : Type) where
  calls : List I
  output : Option O
  avgLatency : ℚ
deriving DecidableEq

/-- The notebook function `inference_test` (cell 25): call the loaded predictor `nrepeat`
times, each time on the first `batch` rows of the evaluation data, and
report the elapsed time divided by `nrepeat` as the average latency per
batch.  `elapsedSec` is the measured wall-clock duration of the timed
loop. -/
def inference_test {Row O : Type} (predictor : List Row → O)
    (evalData : List Row) (batch nrepeat : Nat) (elapsedSec : ℚ) :
    InferenceTiming (List Row) O :=
  { calls := (predictLoop predictor (evalData.take batch) nrepeat).1,
    output := (predictLoop predictor (evalData.take batch) nrepeat).2,
    avgLatency := elapsedSec / (nrepeat : ℚ) }

/-- What a timed cloud inference run did: the payload of the warm-up
request sent before the timer starts, then the timed calls and the
reported average. -/
structure CmleTiming (I O : Type) where
  warmupCall : I
  timed : InferenceTiming (List I) O
deriving DecidableEq

/-- The notebook function `inference_cmle` (cell 74): build one instance per row of the first
`batch` rows of the evaluation data, send one warm-up request carrying
`instances[0]` before the timer starts, then call `predict` `nrepeat`
times on the full instance list and report the elapsed time divided by
`nrepeat`.  `none` when `instances[0]` raises on an empty instance
list. -/
def inference_cmle {Row O : Type} (cloudPredict : List Row → O)
    (evalData : List Row) (batch nrepeat : Nat) (elapsedSec : ℚ) :
    Option (CmleTiming Row O) :=
  let instances := evalData.take batch
  match instances.head? with
  | none => none
  | some first =>
    some { warmupCall := first,
           timed :=
             { calls := (predictLoop cloudPredict instances nrepeat).1,
               output := (predictLoop cloudPredict instances nrepeat).2,
               avgLatency := elapsedSec / (nrepeat : ℚ) } }

/-! The pipeline the notebook runs. -/

/-- The artifacts the notebook cells produce and consume. -/
inductive Artifact : Type where
  | trainedCheckpoint
  | savedModelExport
  | freezedModelPb
  | optimisedModelPb
  | optimisedSavedModel
  | uploadedOriginal
  | uploadedOptimised
  | deployedOriginal
  | deployedOptimised
deriving DecidableEq

/-- The kinds of steps the notebook code cells perform. -/
inductive StepKind : Type where
  | trainAndEvaluate
  | exportSavedModel
  | inspectGraph
  | measureSize
  | inferenceLocal
  | freezeKind
  | optimizeKind
  | convertKind
  | uploadKind
  | deployKind
  | inferenceCloud
deriving DecidableEq

/-- One notebook step: its kind and the artifacts it reads and writes. -/
structure Step where
  kind : StepKind
  uses : List Artifact
  makes : List Artifact
deriving DecidableEq

/-- The notebook code cells in execution order, with the artifacts each
one reads and writes (cells 19 through 76; diagnostic-only cells carry an
empty `makes`). -/
def notebookPipeline : List Step :=
  [{ kind := StepKind.trainAndEvaluate, uses := [],
     makes := [Artifact.trainedCheckpoint] },
   { kind := StepKind.exportSavedModel, uses := [Artifact.trainedCheckpoint],
     makes := [Artifact.savedModelExport] },
   { kind := StepKind.inferenceLocal, uses := [Artifact.savedModelExport],
     makes := [] },
   { kind := StepKind.inspectGraph, uses := [Artifact.savedModelExport],
     makes := [] },
   { kind := StepKind.measureSize, uses := [Artifact.savedModelExport],
     makes := [] },
   { kind := StepKind.freezeKind, uses := [Artifact.savedModelExport],
     makes := [Artifact.freezedModelPb] },
   { kind := StepKind.inspectGraph, uses := [Artifact.freezedModelPb],
     makes := [] },
   { kind := StepKind.optimizeKind, uses := [Artifact.freezedModelPb],
     makes := [Artifact.optimisedModelPb] },
   { kind := StepKind.inspectGraph, uses := [Artifact.optimisedModelPb],
     makes := [] },
   { kind := StepKind.convertKind, uses := [Artifact.optimisedModelPb],
     makes := [Artifact.optimisedSavedModel] },
   { kind := StepKind.measureSize, uses := [Artifact.optimisedSavedModel],
     makes := [] },
   { kind := StepKind.inferenceLocal, uses := [Artifact.optimisedSavedModel],
     makes := [] },
   { kind := StepKind.uploadKind, uses := [Artifact.savedModelExport],
     makes := [Artifact.uploadedOriginal] },
   { kind := StepKind.uploadKind, uses := [Artifact.optimisedSavedModel],
     makes := [Artifact.uploadedOptimised] },
   { kind := StepKind.deployKind, uses := [Artifact.uploadedOriginal],
     makes := [Artifact.deployedOriginal] },
   { kind := StepKind.deployKind, uses := [Artifact.uploadedOptimised],
     makes := [Artifact.deployedOptimised] },
   { kind := StepKind.inferenceCloud, uses := [Artifact.deployedOriginal],
     makes := [] },
   { kind := StepKind.inferenceCloud, uses := [Artifact.deployedOptimised],
     makes := [] }]

/-- Every step of kind `a` comes strictly before every step of kind `b`
in the pipeline. -/
def stepOrdered (p : List Step) (a b : StepKind) : Prop :=
  ∀ i j : Fin p.length, (p.get i).kind = a → (p.get j).kind = b →
    (i : Nat) < (j : Nat)

/-- Every artifact a step reads was written by some strictly earlier
step. -/
def pipelineWellFormed (p : List Step) : Prop :=
  ∀ i : Fin p.length, ∀ a ∈ (p.get i).uses,
    ∃ j : Fin p.length, (j : Nat) < (i : Nat) ∧ a ∈ (p.get j).makes

instance (p : List Step) (a b : StepKind) : Decidable (stepOrdered p a b) := by
  unfold stepOrdered; infer_instance

instance (p : List Step) : Decidable (pipelineWellFormed p) := by
  unfold pipelineWellFormed; infer_instance

/-! Helper lemmas. -/

theorem decodeStr_encodeStr (s : String) (rest : List Nat) :
    decodeStr (encodeStr s ++ rest) = some (s, rest) := by
  have hlen : (s.data.map Char.toNat).length = s.data.length := by
    simp
  simp only [encodeStr, List.cons_append, decodeStr]
  rw [if_pos]
  · rw [List.take_left' hlen, List.drop_left' hlen, List.map_map]
    have hmap : s.data.map (Char.ofNat ∘ Char.toNat) = s.data := by
      have : (Char.ofNat ∘ Char.toNat) = id := by
        funext c
        simp [Function.comp, Char.ofNat_toNat]
      rw [this, List.map_id]
    rw [hmap]
  · simp

theorem decodeNodes_encode (ns : List NodeDef) (rest : List Nat) :
    decodeNodes ns.length ((ns.map encodeNode).flatten ++ rest) =
      some (ns, rest) := by
  induction ns generalizing rest with
  | nil => simp [decodeNodes]
  | cons n tail ih =>
    simp only [List.map_cons, List.flatten_cons, List.length_cons, encodeNode,
      List.append_assoc]
    simp only [decodeNodes, decodeStr_encodeStr, ih]

theorem decodeGraphDef_encodeGraphDef (g : GraphDef) :
    decodeGraphDef (encodeGraphDef g) = some g := by
  have h := decodeNodes_encode g.node []
  rw [List.append_nil] at h
  rw [encodeGraphDef, decodeGraphDef, h]

theorem predictLoop_fst {I O : Type} (predictor : I → O) (input : I)
    (n : Nat) : (predictLoop predictor input n).1 = List.replicate n input := by
  induction n with
  | zero => rfl
  | succ k ih => rw [predictLoop, ih, List.replicate_succ']

theorem pathJoin_length (a b : String) :
    (pathJoin a b).length = a.length + 1 + b.length := by
  have h1 : ("/" : String).length = 1 := rfl
  simp [pathJoin, h1]

theorem pathJoin_freezed_ne_optimised (d : String) :
    pathJoin d "freezed_model.pb" ≠ pathJoin d "optimised_model.pb" := by
  intro h
  have h2 := congrArg String.length h
  rw [pathJoin_length, pathJoin_length] at h2
  have e1 : ("freezed_model.pb" : String).length = 16 := rfl
  have e2 : ("optimised_model.pb" : String).length = 18 := rfl
  rw [e1, e2] at h2
  omega

theorem foldl_dictInsert_append (kvs : List (String × String)) :
    ∀ acc : List (String × String),
      (∀ kv ∈ kvs, ∀ p ∈ acc, p.1 ≠ kv.1) →
      (kvs.map Prod.fst).Nodup →
      List.foldl dictInsert acc kvs = acc ++ kvs := by
  induction kvs with
  | nil => intro acc _ _; simp
  | cons kv rest ih =>
    intro acc hdisj hnodup
    have hins : dictInsert acc kv = acc ++ [kv] := by
      unfold dictInsert
      rw [if_neg]
      simp only [List.any_eq_true, beq_iff_eq, not_exists, not_and]
      intro p hp
      exact hdisj kv (List.mem_cons_self kv rest) p hp
    rw [List.foldl_cons, hins]
    rw [List.map_cons, List.nodup_cons] at hnodup
    have hdisj2 : ∀ kv2 ∈ rest, ∀ p ∈ acc ++ [kv], p.1 ≠ kv2.1 := by
      intro kv2 hkv2 p hp
      rcases List.mem_append.mp hp with hpa | hpk
      · exact hdisj kv2 (List.mem_cons_of_mem kv hkv2) p hpa
      · rcases List.mem_singleton.mp hpk with rfl
        intro heq
        exact hnodup.1 (heq ▸ List.mem_map_of_mem Prod.fst hkv2)
    rw [ih (acc ++ [kv]) hdisj2 hnodup.2, List.append_assoc, List.singleton_append]

theorem dictOfList_eq_self (kvs : List (String × String))
    (h : (kvs.map Prod.fst).Nodup) : dictOfList kvs = kvs := by
  unfold dictOfList
  have := foldl_dictInsert_append kvs [] (by intro kv _ p hp; cases hp) h
  simpa using this

/-! Claim theorems. -/

/-- Claim C1: for every SavedModel graph processed by the freeze step, the
resulting frozen graph has its variable nodes replaced by embedded
constants, so the Variable Count that `describe_graph` reports on it is 0 and no node
refers to an external parameter. -/
theorem freeze_graph_no_variables (g : GraphDef) :
    (describe_graph (freeze_graph g)).variableCount = 0 := by
  simp only [describe_graph, freeze_graph]
  rw [List.length_eq_zero, List.filter_eq_nil_iff]
  intro n hn
  simp only [List.mem_map] at hn
  obtain ⟨m, _, rfl⟩ := hn
  unfold freeze_node
  by_cases h : containsSub m.op "Variable"
  · rw [if_pos h]
    show ¬containsSub "Const" "Variable" = true
    decide
  · rw [if_neg h]
    simpa using h

/-- Claim C2: the notebook pipeline runs in the fixed order train and
export, then freeze, then optimize, then convert back to a SavedModel,
and only then deploy to the cloud service; moreover every artifact a step
consumes was produced by an earlier step. -/
theorem pipeline_order :
    stepOrdered notebookPipeline StepKind.trainAndEvaluate StepKind.exportSavedModel ∧
    stepOrdered notebookPipeline StepKind.exportSavedModel StepKind.freezeKind ∧
    stepOrdered notebookPipeline StepKind.freezeKind StepKind.optimizeKind ∧
    stepOrdered notebookPipeline StepKind.optimizeKind StepKind.convertKind ∧
    stepOrdered notebookPipeline StepKind.convertKind StepKind.deployKind ∧
    pipelineWellFormed notebookPipeline := by
  refine ⟨?_, ?_, ?_, ?_, ?_, ?_⟩ <;> decide

/-- Claim C3: `optimize_graph` performs no rewriting itself: it reads the
input GraphDef, hands it to the external `TransformGraph` with empty
input names and output names `[head/predictions/ExpandDims]`, writes the
returned graph to `optimised_model.pb`, and leaves every other file — in
particular `freezed_model.pb` — and the in-memory input graph unchanged. -/
theorem optimize_graph_frame (tg : TransformFn) (fs : FileSys)
    (model_dir : String) (ts : List String) (g : GraphDef)
    (h : get_graph_def_from_file fs (pathJoin model_dir "freezed_model.pb") = some g) :
    ∃ fs2 : FileSys,
      optimize_graph tg fs model_dir "freezed_model.pb" ts = some fs2 ∧
      fs2 (pathJoin model_dir "optimised_model.pb") =
        some (encodeGraphDef (tg g [] ["head/predictions/ExpandDims"] ts)) ∧
      (∀ p, p ≠ pathJoin model_dir "optimised_model.pb" → fs2 p = fs p) ∧
      fs2 (pathJoin model_dir "freezed_model.pb") =
        fs (pathJoin model_dir "freezed_model.pb") := by
  refine ⟨write_graph fs (tg g [] ["head/predictions/ExpandDims"] ts)
    model_dir "optimised_model.pb", ?_, ?_, ?_, ?_⟩
  · rw [optimize_graph, h]
  · rw [write_graph, if_pos rfl]
  · intro p hp
    rw [write_graph, if_neg hp]
  · rw [write_graph, if_neg (pathJoin_freezed_ne_optimised model_dir)]

/-- Claim C4: the transform list the notebook passes to `optimize_graph`
is exactly the seven listed transforms; it contains neither
`quantize_weights` nor `quantize_nodes`, so no quantization is
requested. -/
theorem transforms_no_quantization :
    transforms =
      ["remove_nodes(op=Identity)",
       "fold_constants(ignore_errors=true)",
       "fold_batch_norms",
       "fuse_resize_pad_and_conv",
       "merge_duplicate_nodes",
       "strip_unused_nodes",
       "sort_by_execution_order"] ∧
    "quantize_weights" ∉ transforms ∧
    "quantize_nodes" ∉ transforms := by
  refine ⟨rfl, ?_, ?_⟩ <;> decide

/-- Claim C10: serializing a GraphDef in binary form with
`tf.train.write_graph`, as `optimize_graph` does for
`optimised_model.pb`, and reading the file back with
`get_graph_def_from_file` yields the original GraphDef. -/
theorem write_graph_roundtrip (fs : FileSys) (g : GraphDef)
    (model_dir : String) :
    get_graph_def_from_file
      (write_graph fs g model_dir "optimised_model.pb")
      (pathJoin model_dir "optimised_model.pb") = some g := by
  rw [get_graph_def_from_file, write_graph, if_pos rfl, Option.some_bind,
    decodeGraphDef_encodeGraphDef]

/-- Witness for claim C3: `optimize_graph` applied with the identity as
the external transform to a file system holding one frozen one-node
graph. -/
theorem optimize_graph_frame_witness :
    ∃ fs2 : FileSys,
      optimize_graph (fun g _ _ _ => g)
        (fun p => if p = pathJoin "m" "freezed_model.pb" then
          some (encodeGraphDef { node := [{ name := "x", op := "Const" }] })
          else none)
        "m" "freezed_model.pb" transforms = some fs2 ∧
      fs2 (pathJoin "m" "optimised_model.pb") =
        some (encodeGraphDef { node := [{ name := "x", op := "Const" }] }) ∧
      (∀ p, p ≠ pathJoin "m" "optimised_model.pb" →
        fs2 p = (fun p => if p = pathJoin "m" "freezed_model.pb" then
          some (encodeGraphDef { node := [{ name := "x", op := "Const" }] })
          else none) p) ∧
      fs2 (pathJoin "m" "freezed_model.pb") =
        (fun p => if p = pathJoin "m" "freezed_model.pb" then
          some (encodeGraphDef { node := [{ name := "x", op := "Const" }] })
          else none) (pathJoin "m" "freezed_model.pb") :=
  optimize_graph_frame (fun g _ _ _ => g) _ "m" transforms
    { node := [{ name := "x", op := "Const" }] } (by rfl)

/-- Claim C5: `describe_graph` is a pure diagnostic over a GraphDef: the
input feature nodes are exactly the nodes with op `Placeholder`, the
unused nodes exactly those whose name contains `unused`, the output nodes
exactly those whose name contains `predictions`, the constant, variable
and identity counts count the nodes with op `Const`, op containing
`Variable`, and op `Identity`, the total is the number of nodes, and the
graph is left unchanged. -/
theorem describe_graph_reports (g : GraphDef) :
    (∀ s, s ∈ (describe_graph g).inputFeatureNodes ↔
        ∃ n, n ∈ g.node ∧ n.op = "Placeholder" ∧ n.name = s) ∧
    (∀ s, s ∈ (describe_graph g).unusedNodes ↔
        ∃ n, n ∈ g.node ∧ containsSub n.name "unused" = true ∧ n.name = s) ∧
    (∀ s, s ∈ (describe_graph g).outputNodes ↔
        ∃ n, n ∈ g.node ∧ containsSub n.name "predictions" = true ∧ n.name = s) ∧
    (describe_graph g).constantCount =
      g.node.countP (fun n => n.op == "Const") ∧
    (describe_graph g).variableCount =
      g.node.countP (fun n => containsSub n.op "Variable") ∧
    (describe_graph g).identityCount =
      g.node.countP (fun n => n.op == "Identity") ∧
    (describe_graph g).totalNodes = g.node.length ∧
    (describe_graph_run g).2 = g := by
  refine ⟨?_, ?_, ?_, ?_, ?_, ?_, rfl, rfl⟩
  · intro s
    simp [describe_graph, List.mem_filter, List.mem_map, beq_iff_eq, and_assoc]
  · intro s
    simp [describe_graph, List.mem_filter, List.mem_map, and_assoc]
  · intro s
    simp [describe_graph, List.mem_filter, List.mem_map, and_assoc]
  · simp [describe_graph, List.countP_eq_length_filter]
  · simp [describe_graph, List.countP_eq_length_filter]
  · simp [describe_graph, List.countP_eq_length_filter]

/-- Claim C6: `get_size` reports the size of `saved_model.pb`, a
variables size that is the data file plus the index file when the data
file exists and 0 when it does not, and a total that is their sum — so
with no variables folder the total is the `saved_model.pb` size alone. -/
theorem get_size_total :
    (∀ (sizes : String → Option Nat) (dir : String) (pb d i : Nat),
      sizes (pathJoin dir "saved_model.pb") = some pb →
      sizes (pathJoin dir "variables/variables.data-00000-of-00001") = some d →
      sizes (pathJoin dir "variables/variables.index") = some i →
      get_size sizes dir = some (pb, d + i, pb + (d + i))) ∧
    (∀ (sizes : String → Option Nat) (dir : String) (pb : Nat),
      sizes (pathJoin dir "saved_model.pb") = some pb →
      sizes (pathJoin dir "variables/variables.data-00000-of-00001") = none →
      get_size sizes dir = some (pb, 0, pb)) := by
  constructor
  · intro sizes dir pb d i hpb hd hi
    rw [get_size, hpb, hd, hi]
  · intro sizes dir pb hpb hd
    rw [get_size, hpb, hd]
    simp

/-- Witness for claim C6: `get_size` on a three-file store and on a store
with no variables folder. -/
theorem get_size_total_witness :
    get_size (fun p => if p = "m/saved_model.pb" then some 10 else
        if p = "m/variables/variables.data-00000-of-00001" then some 20 else
        if p = "m/variables/variables.index" then some 5 else none) "m" =
      some (10, 20 + 5, 10 + (20 + 5)) ∧
    get_size (fun p => if p = "n/saved_model.pb" then some 7 else none) "n" =
      some (7, 0, 7) :=
  ⟨get_size_total.1 _ "m" 10 20 5 (by rfl) (by rfl) (by rfl),
   get_size_total.2 _ "n" 7 (by rfl) (by rfl)⟩

/-- Claim C7: `inference_test` calls the loaded predictor exactly
`nrepeat` times, each time on the first `batch` rows of the evaluation
data, and reports the elapsed time divided by `nrepeat` as the average
latency; `inference_cmle` does the same against the cloud service, with
one warm-up request sent before the timer starts. -/
theorem inference_timing :
    (∀ (Row O : Type) (predictor : List Row → O) (evalData : List Row)
        (batch nrepeat : Nat) (elapsedSec : ℚ), 0 < nrepeat →
      (inference_test predictor evalData batch nrepeat elapsedSec).calls =
        List.replicate nrepeat (evalData.take batch) ∧
      (inference_test predictor evalData batch nrepeat elapsedSec).calls.length =
        nrepeat ∧
      (inference_test predictor evalData batch nrepeat elapsedSec).avgLatency =
        elapsedSec / (nrepeat : ℚ)) ∧
    (∀ (Row O : Type) (cloudPredict : List Row → O) (evalData : List Row)
        (batch nrepeat : Nat) (elapsedSec : ℚ) (first : Row),
      (evalData.take batch).head? = some first → 0 < nrepeat →
      ∃ t : CmleTiming Row O,
        inference_cmle cloudPredict evalData batch nrepeat elapsedSec = some t ∧
        t.warmupCall = first ∧
        t.timed.calls = List.replicate nrepeat (evalData.take batch) ∧
        t.timed.calls.length = nrepeat ∧
        t.timed.avgLatency = elapsedSec / (nrepeat : ℚ)) := by
  constructor
  · intro Row O predictor evalData batch nrepeat elapsedSec _
    refine ⟨?_, ?_, rfl⟩
    · rw [inference_test]
      exact predictLoop_fst predictor (evalData.take batch) nrepeat
    · rw [inference_test]
      rw [predictLoop_fst predictor (evalData.take batch) nrepeat,
        List.length_replicate]
  · intro Row O cloudPredict evalData batch nrepeat elapsedSec first hfirst _
    rw [inference_cmle]
    rw [hfirst]
    refine ⟨_, rfl, rfl, ?_, ?_, rfl⟩
    · exact predictLoop_fst cloudPredict (evalData.take batch) nrepeat
    · rw [predictLoop_fst cloudPredict (evalData.take batch) nrepeat,
        List.length_replicate]

/-- Witness for claim C7: a local run with three repeats over a
three-row evaluation set and batch two, and a cloud run over the same
data. -/
theorem inference_timing_witness :
    ((inference_test (fun _ : List Nat => (0 : Nat)) [1, 2, 3] 2 3 6).calls =
        List.replicate 3 ([1, 2, 3].take 2) ∧
      (inference_test (fun _ : List Nat => (0 : Nat)) [1, 2, 3] 2 3 6).calls.length =
        3 ∧
      (inference_test (fun _ : List Nat => (0 : Nat)) [1, 2, 3] 2 3 6).avgLatency =
        6 / ((3 : Nat) : ℚ)) ∧
    (∃ t : CmleTiming Nat Nat,
      inference_cmle (fun _ : List Nat => (0 : Nat)) [1, 2, 3] 2 3 6 = some t ∧
      t.warmupCall = 1 ∧
      t.timed.calls = List.replicate 3 ([1, 2, 3].take 2) ∧
      t.timed.calls.length = 3 ∧
      t.timed.avgLatency = 6 / ((3 : Nat) : ℚ)) :=
  ⟨inference_timing.1 Nat Nat (fun _ => 0) [1, 2, 3] 2 3 6 (by decide),
   inference_timing.2 Nat Nat (fun _ => 0) [1, 2, 3] 2 3 6 1 (by rfl) (by decide)⟩

/-- Claim C8: `convert_graph_def_to_saved_model` builds a SavedModel
whose inputs dict has one entry per Placeholder node, keyed by the node
name and bound to `name:0`, and whose outputs dict is exactly
`class_ids` bound to `head/predictions/ExpandDims:0`; the written
`optimised` directory holds the new SavedModel in place of any
pre-existing one, and no other directory changes. -/
theorem convert_saved_model_signature (dir : String) (store : ModelStore)
    (g : GraphDef)
    (h1 : (g.node.map (fun n => n.name)).Nodup)
    (h2 : g.node.any (fun n => n.name == "head/predictions/ExpandDims") = true) :
    ∃ (sm : SavedModel) (store2 : ModelStore),
      convert_graph_def_to_saved_model dir store g = some (sm, store2) ∧
      sm.inputs = (g.node.filter (fun n => n.op == "Placeholder")).map
        (fun n => (n.name, n.name ++ ":0")) ∧
      sm.outputs = [("class_ids", "head/predictions/ExpandDims:0")] ∧
      store2 (pathJoin dir "optimised") = some sm ∧
      (∀ p, p ≠ pathJoin dir "optimised" → store2 p = store p) := by
  rw [convert_graph_def_to_saved_model, if_pos ⟨h1, h2⟩]
  refine ⟨_, _, rfl, ?_, rfl, ?_, ?_⟩
  · show dictOfList _ = _
    apply dictOfList_eq_self
    rw [List.map_map]
    show ((g.node.filter (fun n => n.op == "Placeholder")).map
      (fun n => n.name)).Nodup
    exact h1.sublist ((List.filter_sublist g.node).map (fun n => n.name))
  · show (if pathJoin dir "optimised" = pathJoin dir "optimised" then _ else _) = _
    rw [if_pos rfl]
  · intro p hp
    show (if p = pathJoin dir "optimised" then _ else _) = _
    rw [if_neg hp, deleteDir, if_neg hp]

/-- Witness for claim C8: a two-node graph with one Placeholder and the
output node, converted over an empty store. -/
theorem convert_saved_model_signature_witness :
    ∃ (sm : SavedModel) (store2 : ModelStore),
      convert_graph_def_to_saved_model "d" (fun _ => none)
        { node := [{ name := "input_image", op := "Placeholder" },
                   { name := "head/predictions/ExpandDims", op := "ExpandDims" }] } =
        some (sm, store2) ∧
      sm.inputs =
        (({ node := [{ name := "input_image", op := "Placeholder" },
            { name := "head/predictions/ExpandDims", op := "ExpandDims" }] :
              GraphDef }).node.filter (fun n => n.op == "Placeholder")).map
          (fun n => (n.name, n.name ++ ":0")) ∧
      sm.outputs = [("class_ids", "head/predictions/ExpandDims:0")] ∧
      store2 (pathJoin "d" "optimised") = some sm ∧
      (∀ p, p ≠ pathJoin "d" "optimised" → store2 p = (fun _ => none) p) :=
  convert_saved_model_signature "d" (fun _ => none)
    { node := [{ name := "input_image", op := "Placeholder" },
               { name := "head/predictions/ExpandDims", op := "ExpandDims" }] }
    (by decide) (by decide)

theorem getAllClassIds_eq (items : List PyVal) (f : PyVal → PyVal)
    (hf : ∀ it ∈ items, it.get "class_ids" = some (f it)) :
    getAllClassIds items = some (items.map f) := by
  induction items with
  | nil => rfl
  | cons it rest ih =>
    rw [List.map_cons, getAllClassIds, hf it (List.mem_cons_self it rest),
      ih (fun x hx => hf x (List.mem_cons_of_mem it hx))]

/-- Claim C9: `predict` never raises on a malformed response: when the
response has a `predictions` list whose items all carry `class_ids`, it
returns those class ids in order; when the extraction fails — for
example the `predictions` key is absent — the bare `except` catches the
failure and `None` is returned. -/
theorem predict_malformed_response :
    (∀ (response : PyVal) (items : List PyVal) (f : PyVal → PyVal),
      response.get "predictions" = some (PyVal.list items) →
      (∀ it ∈ items, it.get "class_ids" = some (f it)) →
      predict response = some (items.map f)) ∧
    (∀ response : PyVal, response.get "predictions" = none →
      predict response = none) := by
  constructor
  · intro response items f hp hf
    rw [predict, extractClassIds, hp]
    show (match getAllClassIds items with
      | some class_ids => some class_ids
      | none => none) = some (items.map f)
    rw [getAllClassIds_eq items f hf]
  · intro response hp
    rw [predict, extractClassIds, hp]

/-- Witness for claim C9: a well-formed response with one prediction
carrying `class_ids`, and a response with no `predictions` key. -/
theorem predict_malformed_response_witness :
    predict (PyVal.dict [("predictions",
        PyVal.list [PyVal.dict [("class_ids", PyVal.int 7)]])]) =
      some ([PyVal.dict [("class_ids", PyVal.int 7)]].map
        (fun _ => PyVal.int 7)) ∧
    predict (PyVal.dict []) = none :=
  ⟨predict_malformed_response.1
      (PyVal.dict [("predictions",
        PyVal.list [PyVal.dict [("class_ids", PyVal.int 7)]])])
      [PyVal.dict [("class_ids", PyVal.int 7)]] (fun _ => PyVal.int 7)
      (by rfl)
      (by
        intro it hit
        rcases List.mem_singleton.mp hit with rfl
        rfl),
   predict_malformed_response.2 (PyVal.dict []) (by rfl)⟩

end TFOpt
